import Mathlib

/-!
Shallow embedding of the UrbanSetu complaint submission and lifecycle code:
`src/components/citizen/ReportComplaint.js`, `src/services/complaintService.js`
and the `complaints` table schema from the repository's Supabase setup notes.
JavaScript values relevant to the claims are modelled explicitly (truthiness,
`||` chains, optional-chaining property access); numbers are rationals;
timestamps are naturals.
-/

/-- Subset of JavaScript values appearing in the wizard's form fields:
`latitude`/`longitude` hold either a string (the `''` default) or a number
(written by `setValue`), and property access on a missing key yields
`undefined`. -/
inductive JSVal where
  | str (s : String)
  | num (q : ℚ)
  | undef
deriving DecidableEq, Repr

/-- JavaScript truthiness for the values of `JSVal`: the empty string, `0`
and `undefined` are falsy. -/
def JSVal.truthy : JSVal → Bool
  | .str s => s ≠ ""
  | .num q => q ≠ 0
  | .undef => false

/-- JavaScript `a || b` on `JSVal`. -/
def jsOr (a b : JSVal) : JSVal := if a.truthy then a else b

/-- Truthy projection of an optional string: `some s` survives only when `s`
is non-empty, mirroring a JavaScript truthiness test on a possibly-undefined
string. -/
def jsStr : Option String → Option String
  | some s => if s = "" then none else some s
  | none => none

/-- JavaScript `a || b` where `a` is a possibly-undefined string and `b` a
string default. -/
def jsOrS (a : Option String) (b : String) : String :=
  match jsStr a with
  | some s => s
  | none => b

/-- Numeric value of a digit list, most significant first. -/
def digitsVal (l : List Char) : ℚ :=
  l.foldl (fun a c => a * 10 + ((c.toNat - 48 : ℕ) : ℚ)) 0

/-- JavaScript `parseFloat` restricted to plain decimal literals
(optional sign, integer digits, optional fraction); `none` models `NaN`. -/
def parseDec (s : String) : Option ℚ :=
  let rest : List Char := match s.data with
    | '-' :: r => r
    | '+' :: r => r
    | r => r
  let sign : ℚ := match s.data with
    | '-' :: _ => -1
    | _ => 1
  let intDs := rest.takeWhile Char.isDigit
  let rest2 := rest.dropWhile Char.isDigit
  let fracDs : List Char := match rest2 with
    | '.' :: r => r.takeWhile Char.isDigit
    | _ => []
  if intDs.isEmpty && fracDs.isEmpty then none
  else some (sign * (digitsVal intDs + digitsVal fracDs / 10 ^ fracDs.length))

/-- JavaScript `parseFloat` applied to a `JSVal`; `none` models `NaN`. -/
def parseFloatJS : JSVal → Option ℚ
  | .num q => some q
  | .str s => parseDec s
  | .undef => none

/-- Exactly six fraction digits of `n` (taken modulo `10 ^ 6`),
zero-padded. -/
def fracDigits6 (n : ℕ) : String :=
  String.mk [Nat.digitChar (n / 100000 % 10), Nat.digitChar (n / 10000 % 10),
    Nat.digitChar (n / 1000 % 10), Nat.digitChar (n / 100 % 10),
    Nat.digitChar (n / 10 % 10), Nat.digitChar (n % 10)]

/-- Rendering of a non-negative rational with six digits after the decimal
point, rounding to nearest with ties towards the larger value, as in
`Number.prototype.toFixed`. -/
def toFixed6Abs (q : ℚ) : String :=
  let n : ℕ := (Int.floor (q * 1000000 + 1 / 2)).toNat
  toString (n / 1000000) ++ "." ++ fracDigits6 (n % 1000000)

/-- JavaScript `x.toFixed(6)`: sign handled first, then the non-negative
rendering. -/
def toFixed6 (q : ℚ) : String :=
  if q < 0 then "-" ++ toFixed6Abs (-q) else toFixed6Abs q

/-- Issue categories; the five classes of the classifier
(`AI_CLASSES` in `ReportComplaint.js`), which also populate the category
`<select>` of the Details step. -/
inductive Category where
  | Pothole | Garbage | Sewage | StreetLight | FallenTree
deriving DecidableEq, Repr

/-- Display name of a category, as it appears in `AI_CLASSES`. -/
def categoryName : Category → String
  | .Pothole => "Pothole"
  | .Garbage => "Garbage"
  | .Sewage => "Sewage"
  | .StreetLight => "StreetLight"
  | .FallenTree => "FallenTree"

/-- Fixed category-to-department lookup table (`DEPARTMENT_MAPPING`). -/
def departmentMapping : Category → String
  | .Pothole => "Road Authority"
  | .Garbage => "Sanitation Department"
  | .Sewage => "Water & Sewage Board"
  | .StreetLight => "Electrical Department"
  | .FallenTree => "Parks & Horticulture"

/-- String-keyed view of `DEPARTMENT_MAPPING`, as used by
`DEPARTMENT_MAPPING[data.category]` in `onSubmit`; an unknown key yields
`undefined` (`none`). -/
def departmentFor (s : String) : Option String :=
  if s = "Pothole" then some "Road Authority"
  else if s = "Garbage" then some "Sanitation Department"
  else if s = "Sewage" then some "Water & Sewage Board"
  else if s = "StreetLight" then some "Electrical Department"
  else if s = "FallenTree" then some "Parks & Horticulture"
  else none

/-- Description templates (`DESCRIPTION_TEMPLATES`); each contains the
placeholder `[ADDRESS]` exactly once. -/
def descriptionTemplate : Category → String
  | .Pothole => "I have noticed a pothole at [ADDRESS]. It is creating difficulty for pedestrians and vehicles."
  | .Garbage => "There is accumulated garbage at [ADDRESS]. It needs immediate attention for cleanliness."
  | .Sewage => "There is sewage overflow/blockage at [ADDRESS]. It is causing unhygienic conditions."
  | .StreetLight => "Street light is not working at [ADDRESS]. It is causing safety concerns during night time."
  | .FallenTree => "A tree has fallen at [ADDRESS]. It is blocking the path and needs removal."

/-- Confidence threshold for auto-filling from the classifier
(`CONFIDENCE_THRESHOLD = 0.6`). -/
def confidenceThreshold : ℚ := 0.6

/-- Location state object, modelled as the literal JavaScript object: a list
of key/number pairs. `setCurrentLocation({ latitude, longitude })` and the
map's `onLocationSelect({ latitude: lat, longitude: lng })` both construct
objects with exactly the keys `latitude` and `longitude`. -/
abbrev LocationObj : Type := List (String × ℚ)

/-- Location object constructed by the wizard: keys `latitude` and
`longitude` only. -/
def mkLocation (lat lon : ℚ) : LocationObj := [("latitude", lat), ("longitude", lon)]

/-- JavaScript property access `obj.key`; `none` models `undefined`. -/
def getProp (o : LocationObj) (k : String) : Option ℚ :=
  (o.find? (fun p => p.1 = k)).map (fun p => p.2)

/-- One entry of the classifier's output: a class and its probability. -/
structure Prediction where
  className : Category
  probability : ℚ
deriving DecidableEq, Repr

/-- Highest-confidence prediction: the scan in `processImageWithAI` that
starts from confidence `0` and an empty class and keeps the first strictly
larger probability. -/
def bestPrediction (l : List Prediction) : Option Category × ℚ :=
  l.foldl (fun acc p => if p.probability > acc.2 then (some p.className, p.probability) else acc)
    (none, 0)

/-- Form state of the submission wizard (`useForm` default values: empty
strings, priority `medium`). `latitude`/`longitude` are kept as JavaScript
values because `setValue` writes numbers over the `''` defaults. -/
structure FormState where
  category : String
  description : String
  priority : String
  department : String
  address : String
  latitude : JSVal
  longitude : JSVal
deriving DecidableEq, Repr

/-- Initial form state (the `defaultValues` of `useForm`). -/
def defaultForm : FormState :=
  { category := "", description := "", priority := "medium", department := "",
    address := "", latitude := .str "", longitude := .str "" }

/-- Replacement of the first occurrence of a pattern in a character list. -/
def listReplaceFirst : List Char → List Char → List Char → List Char
  | [], _, _ => []
  | c :: rest, pat, rep =>
    if pat.isPrefixOf (c :: rest) then rep ++ (c :: rest).drop pat.length
    else c :: listReplaceFirst rest pat rep

/-- JavaScript `s.replace(pat, rep)` with a string pattern: only the first
occurrence is replaced (each description template contains `[ADDRESS]`
exactly once). -/
def replaceFirst (s pat rep : String) : String :=
  ⟨listReplaceFirst s.data pat.data rep.data⟩

/-- Address substituted into the description template on autofill:
`currentAddress || (currentLocation ? coords : '[ADDRESS]')`. -/
def autofillAddress (curAddr : Option String) (curLoc : Option LocationObj) : String :=
  jsOrS curAddr
    (match curLoc with
     | some loc =>
         toFixed6 ((getProp loc "latitude").getD 0) ++ ", " ++
           toFixed6 ((getProp loc "longitude").getD 0)
     | none => "[ADDRESS]")

/-- Form effect of `processImageWithAI`: the highest-confidence prediction
auto-fills `category`, `department` and a templated `description` exactly
when its probability is strictly above `CONFIDENCE_THRESHOLD`; otherwise the
form is left unchanged. The inner `none` branch is unreachable because a
probability above the threshold is positive, so the scan selected a class. -/
def processImageWithAI (form : FormState) (preds : List Prediction)
    (curAddr : Option String) (curLoc : Option LocationObj) : FormState :=
  let best := bestPrediction preds
  if best.2 > confidenceThreshold then
    match best.1 with
    | some cls =>
        { form with
          category := categoryName cls,
          department := departmentMapping cls,
          description :=
            replaceFirst (descriptionTemplate cls) "[ADDRESS]" (autofillAddress curAddr curLoc) }
    | none => form
  else form

/-- Effect of the user changing the category `<select>` of the Details step:
only the registered `category` field changes; the department display there is
an unregistered read-only input, so the form's `department` value is
untouched. -/
def setCategory (f : FormState) (c : String) : FormState := { f with category := c }

/-- Effect of editing the description textarea. -/
def setDescription (f : FormState) (d : String) : FormState := { f with description := d }

/-- Address-detail fields of an OpenStreetMap Nominatim response
(`data.address`); absent fields are `none`, and the empty string is falsy
exactly as in JavaScript. -/
structure NominatimAddress where
  house_number : Option String := none
  road : Option String := none
  street : Option String := none
  suburb : Option String := none
  neighbourhood : Option String := none
  quarter : Option String := none
  hamlet : Option String := none
  village : Option String := none
  city_district : Option String := none
  district : Option String := none
  borough : Option String := none
  city : Option String := none
  town : Option String := none
  municipality : Option String := none
  county : Option String := none
  state : Option String := none
  province : Option String := none
  postcode : Option String := none
deriving DecidableEq, Repr

/-- Parsed JSON body of a Nominatim reverse-geocoding response. -/
structure NominatimData where
  address : Option NominatimAddress := none
  display_name : Option String := none
deriving DecidableEq, Repr

/-- Parsed JSON body of a BigDataCloud reverse-geocoding response;
`hasAdministrative` models the truthiness of
`data.localityInfo && data.localityInfo.administrative`. -/
structure BDCData where
  hasAdministrative : Bool := false
  locality : Option String := none
  principalSubdivision : Option String := none
  countryName : Option String := none
deriving DecidableEq, Repr

/-- JavaScript `if (v) parts.push(v)` for a possibly-undefined string. -/
def pushTruthy (parts : List String) (v : Option String) : List String :=
  match jsStr v with
  | some s => parts ++ [s]
  | none => parts

/-- JavaScript `a || b` over two possibly-undefined strings, as in
`addr.road || addr.street`. -/
def jsOrOpt (a b : Option String) : Option String :=
  match jsStr a with
  | some s => some s
  | none => b

/-- JavaScript `if (v && !parts.includes(v)) parts.push(v)`. -/
def pushTruthyNew (parts : List String) (v : Option String) : List String :=
  match jsStr v with
  | some s => if s ∈ parts then parts else parts ++ [s]
  | none => parts

/-- JavaScript `array.join(', ')`. -/
def joinComma : List String → String
  | [] => ""
  | [s] => s
  | s :: rest => s ++ ", " ++ joinComma rest

/-- Detailed address parts built by the primary Nominatim branch of
`reverseGeocode`, in the source's push order and with its duplicate checks. -/
def nominatimParts (a : NominatimAddress) : List String :=
  let p := pushTruthy [] a.house_number
  let p := pushTruthy p (jsOrOpt a.road a.street)
  let p := pushTruthy p a.suburb
  let p := pushTruthy p a.neighbourhood
  let p := pushTruthy p a.quarter
  let p := pushTruthy p a.hamlet
  let p := pushTruthy p a.village
  let p := pushTruthy p a.city_district
  let p := pushTruthy p a.district
  let p := pushTruthy p a.borough
  let p := pushTruthyNew p a.city
  let p := pushTruthyNew p a.town
  let p := pushTruthyNew p a.municipality
  let p := pushTruthy p a.county
  let p := pushTruthy p (jsOrOpt a.state a.province)
  pushTruthy p a.postcode

/-- Shorter fallback parts built by the primary Nominatim branch when the
parsed address came out too short. -/
def nominatimFallbackParts (a : NominatimAddress) : List String :=
  let p := pushTruthy [] (jsOrOpt a.road a.street)
  let p := pushTruthy p (jsOrOpt a.suburb a.neighbourhood)
  let p := pushTruthyNew p a.city
  let p := pushTruthyNew p a.state
  pushTruthy p a.postcode

/-- Result of processing the primary Nominatim service response inside the
provider loop; `none` means no `return` was hit and the loop moves on. -/
def processNominatim (d : NominatimData) : Option String :=
  match d.address with
  | none => none
  | some a =>
    let full := joinComma (nominatimParts a)
    if full.length > 15 then some full
    else
      match jsStr d.display_name with
      | some dn =>
        if dn.length > full.length then some dn
        else if full.length < 10 then
          match nominatimFallbackParts a with
          | [] => none
          | ps => some (joinComma ps)
        else none
      | none =>
        if full.length < 10 then
          match nominatimFallbackParts a with
          | [] => none
          | ps => some (joinComma ps)
        else none

/-- Result of processing the BigDataCloud service response: two identical
part assemblies guarded first by `localityInfo.administrative` presence and
then by truthiness of any of the three fields. -/
def processBDC (d : BDCData) : Option String :=
  let p := pushTruthy [] d.locality
  let p := pushTruthy p d.principalSubdivision
  let parts := pushTruthy p d.countryName
  let addr := joinComma parts
  if d.hasAdministrative && addr.length > 15 then some addr
  else if ((jsStr d.locality).isSome || (jsStr d.principalSubdivision).isSome
      || (jsStr d.countryName).isSome) && addr.length > 15 then some addr
  else none

/-- Address assembled by the alternative Nominatim branch from the parsed
`data.address`, returned only when long enough. -/
def altFromAddress (d : NominatimData) : Option String :=
  match d.address with
  | none => none
  | some a =>
    let p := pushTruthy [] a.house_number
    let p := pushTruthy p (jsOrOpt a.road a.street)
    let p := pushTruthy p (jsOrOpt a.suburb a.neighbourhood)
    let p := pushTruthy p (jsOrOpt a.city_district a.district)
    let p := pushTruthy p (jsOrOpt a.city a.town)
    let p := pushTruthy p a.state
    let parts := pushTruthy p a.postcode
    let full := joinComma parts
    if full.length > 15 then some full else none

/-- Result of processing the alternative Nominatim service response: the
assembled address when long enough, otherwise the raw `display_name` when
truthy. -/
def processNominatimAlt (d : NominatimData) : Option String :=
  match altFromAddress d with
  | some s => some s
  | none => jsStr d.display_name

/-- The bare coordinate string returned by the outer `catch` of
`reverseGeocode`. -/
def bareCoords (lat lon : ℚ) : String := toFixed6 lat ++ ", " ++ toFixed6 lon

/-- The labelled fallback returned after the provider loop exhausts all
services without a `return`. -/
def gpsFallback (lat lon : ℚ) : String := "GPS Location: " ++ bareCoords lat lon

/-- Reverse geocoding: the three configured services are tried in order
(primary Nominatim, BigDataCloud, alternative Nominatim); a service whose
fetch or JSON parse throws contributes `none`; if no service produces a
`return`, the labelled GPS fallback is used; an exception escaping to the
outer `catch` (modelled by `internalError`) yields the bare coordinate
string. -/
def reverseGeocode (lat lon : ℚ) (r1 : Option NominatimData) (r2 : Option BDCData)
    (r3 : Option NominatimData) (internalError : Bool) : String :=
  if internalError then bareCoords lat lon
  else
    match r1.bind processNominatim with
    | some a => a
    | none =>
      match r2.bind processBDC with
      | some a => a
      | none =>
        match r3.bind processNominatimAlt with
        | some a => a
        | none => gpsFallback lat lon

/-- Row payload handed to the `complaints` insert by `submitComplaint`;
`none` in a field models an absent/`undefined` key (inserted as SQL `NULL`
or the column default). -/
structure ComplaintData where
  user_id : Option String := none
  category : Option String := none
  description : Option String := none
  priority : Option String := none
  status : Option String := none
  department : Option String := none
  address : Option String := none
  latitude : Option ℚ := none
  longitude : Option ℚ := none
  image_url : Option String := none
  ai_confidence : Option ℚ := none
deriving DecidableEq, Repr

/-- The `complaintData` object built in `onSubmit` from the form values, the
upload outcome and the location state. `department` falls back to the lookup
table only when the form's `department` value is falsy, `address` falls back
to `currentAddress` and then a fixed string, and the coordinates go through
`parseFloat(data.x || currentLocation?.lat/lng || 0)`. -/
def complaintDataOf (form : FormState) (uid : String) (imageUrl : Option String)
    (curAddr : Option String) (curLoc : Option LocationObj)
    (aiConf : Option ℚ) : ComplaintData :=
  { user_id := some uid
    category := some form.category
    description := some form.description
    priority := some form.priority
    status := some "pending"
    department := if form.department ≠ "" then some form.department else departmentFor form.category
    address := some (jsOrS (some form.address) (jsOrS curAddr "Address not available"))
    latitude :=
      parseFloatJS (jsOr (jsOr form.latitude
        (match curLoc.bind (fun l => getProp l "lat") with
         | some q => .num q
         | none => .undef)) (.num 0))
    longitude :=
      parseFloatJS (jsOr (jsOr form.longitude
        (match curLoc.bind (fun l => getProp l "lng") with
         | some q => .num q
         | none => .undef)) (.num 0))
    image_url := imageUrl
    ai_confidence :=
      match aiConf with
      | some q => if q ≠ 0 then some q else none
      | none => none }

/-- Image reference available to the insert: the upload runs only when an
image was captured, and an upload failure is caught (`imageUrl` stays null). -/
def uploadedUrl (captured : Bool) (upload : Except Unit String) : Option String :=
  if captured then
    match upload with
    | .ok u => some u
    | .error _ => none
  else none

/-- Create calls issued by one run of `onSubmit`: the image is uploaded first
when present, an upload failure is caught and submission proceeds with a null
`image_url`, then exactly one insert is issued. -/
def onSubmitCalls (form : FormState) (uid : String) (captured : Bool)
    (upload : Except Unit String) (curAddr : Option String)
    (curLoc : Option LocationObj) (aiConf : Option ℚ) : List ComplaintData :=
  [complaintDataOf form uid (uploadedUrl captured upload) curAddr curLoc aiConf]

/-- Persisted complaint row, with the columns of the `complaints` table. -/
structure Complaint where
  id : ℕ
  user_id : Option String
  category : String
  description : String
  priority : String
  status : String
  department : String
  address : String
  latitude : ℚ
  longitude : ℚ
  image_url : Option String
  ai_confidence : Option ℚ
  created_at : ℕ
  updated_at : ℕ
  resolved_at : Option ℕ
  admin_notes : Option String
  assigned_to : Option String
deriving DecidableEq, Repr

/-- Failure modes of the repository create operation. -/
inductive SubmitError where
  | validation
  | storage
deriving DecidableEq, Repr

/-- Check for a missing value in a column the schema declares `NOT NULL`
without a default: `category`, `description`, `department`, `address`,
`latitude`, `longitude`. (`priority` and `status` are `NOT NULL` with
defaults, and `user_id` is nullable.) -/
def missingRequired (d : ComplaintData) : Bool :=
  d.category.isNone || d.description.isNone || d.department.isNone ||
    d.address.isNone || d.latitude.isNone || d.longitude.isNone

/-- Modelled from the spec: the insert performed by the hosted store for
`submitComplaint`, which rethrows the backend error unchanged. The `NOT NULL`
constraints and the `priority`/`status`/`resolved_at` defaults come from the
repository's own `CREATE TABLE complaints` schema; a write failure after
constraint checking is a storage error. -/
def insertComplaint (d : ComplaintData) (now cid : ℕ) (writeOk : Bool) :
    Except SubmitError Complaint :=
  if missingRequired d then .error .validation
  else if !writeOk then .error .storage
  else .ok
    { id := cid
      user_id := d.user_id
      category := d.category.getD ""
      description := d.description.getD ""
      priority := d.priority.getD "medium"
      status := d.status.getD "pending"
      department := d.department.getD ""
      address := d.address.getD ""
      latitude := d.latitude.getD 0
      longitude := d.longitude.getD 0
      image_url := d.image_url
      ai_confidence := d.ai_confidence
      created_at := now
      updated_at := now
      resolved_at := none
      admin_notes := none
      assigned_to := none }

/-- Partial update object passed to `updateComplaintStatus`; absent keys are
`none` and present keys overwrite the row (the function spreads `updates`). -/
structure StatusUpdates where
  status : Option String := none
  category : Option String := none
  department : Option String := none
  admin_notes : Option String := none
  assigned_to : Option String := none
deriving DecidableEq, Repr

/-- Row effect of `updateComplaintStatus`: the updates are spread over the
row, `updated_at` is always set to the current time, and `resolved_at` is set
to the current time exactly when the update carries `status = 'resolved'`
(otherwise it is left unchanged). -/
def updateComplaintStatus (c : Complaint) (u : StatusUpdates) (now : ℕ) : Complaint :=
  { c with
    status := u.status.getD c.status
    category := u.category.getD c.category
    department := u.department.getD c.department
    admin_notes := match u.admin_notes with | some v => some v | none => c.admin_notes
    assigned_to := match u.assigned_to with | some v => some v | none => c.assigned_to
    updated_at := now
    resolved_at := if u.status = some "resolved" then some now else c.resolved_at }

/-- Sequence of `updateComplaintStatus` calls applied in order, each with its
call time. -/
def applyUpdates (c : Complaint) : List (StatusUpdates × ℕ) → Complaint
  | [] => c
  | (u, t) :: rest => applyUpdates (updateComplaintStatus c u t) rest

/-- Filters object accepted by `getAllComplaints`. -/
structure Filters where
  status : Option String := none
  category : Option String := none
  department : Option String := none
  search : Option String := none
deriving DecidableEq, Repr

/-- Query assembled by the service layer against the hosted store: optional
equality filters, an optional `description/address ILIKE %s%` search, and a
descending `created_at` order. -/
structure Query where
  eqUserId : Option String := none
  eqStatus : Option String := none
  eqCategory : Option String := none
  eqDepartment : Option String := none
  searchIlike : Option String := none
deriving DecidableEq, Repr

/-- Query built by `getUserComplaints`: `eq('user_id', userId)` plus
`order('created_at', descending)`. -/
def getUserComplaintsQuery (uid : String) : Query := { eqUserId := some uid }

/-- Query built by `getAllComplaints`: each filter is applied only when its
value is truthy (and, for `status`, not the literal `'all'`). -/
def getAllComplaintsQuery (f : Filters) : Query :=
  { eqUserId := none
    eqStatus :=
      match f.status with
      | some s => if s ≠ "" && s ≠ "all" then some s else none
      | none => none
    eqCategory := jsStr f.category
    eqDepartment := jsStr f.department
    searchIlike := jsStr f.search }

/-- SQL `LIKE` pattern matching over character lists: `%` matches any
sequence (tried against every suffix of the text), `_` any single character,
and ordinary characters compare case-insensitively (giving `ILIKE`). -/
def likeMatch : List Char → List Char → Bool
  | [], s => s.isEmpty
  | p :: ps, s =>
    if p = '%' then s.tails.any (fun t => likeMatch ps t)
    else if p = '_' then
      match s with
      | [] => false
      | _ :: s' => likeMatch ps s'
    else
      match s with
      | [] => false
      | c :: s' => (p.toLower == c.toLower) && likeMatch ps s'

/-- Modelled from the spec: the hosted store's `ILIKE` operator
(ilike-style text search). -/
def ilike (text pattern : String) : Bool := likeMatch pattern.data text.data

/-- Row predicate of a query: every present filter must hold; the search
clause is `description.ilike.%s% OR address.ilike.%s%`. -/
def rowMatches (q : Query) (c : Complaint) : Bool :=
  (match q.eqUserId with | some u => c.user_id == some u | none => true) &&
  (match q.eqStatus with | some s => c.status == s | none => true) &&
  (match q.eqCategory with | some s => c.category == s | none => true) &&
  (match q.eqDepartment with | some s => c.department == s | none => true) &&
  (match q.searchIlike with
   | some s => ilike c.description ("%" ++ s ++ "%") || ilike c.address ("%" ++ s ++ "%")
   | none => true)

/-- Newest-first order on complaints: descending `created_at`. -/
def createdDesc (a b : Complaint) : Prop := b.created_at ≤ a.created_at

instance : DecidableRel createdDesc := fun a b => Nat.decLe b.created_at a.created_at

instance : IsTotal Complaint createdDesc := ⟨fun a b => (Nat.le_total b.created_at a.created_at)⟩

instance : IsTrans Complaint createdDesc := ⟨fun _ _ _ h h' => le_trans h' h⟩

/-- Modelled from the spec: execution of an assembled query by the hosted
store — equality filters, ilike-style text search and `created_at`
ordering. -/
def runQuery (db : List Complaint) (q : Query) : List Complaint :=
  (db.filter (rowMatches q)).insertionSort createdDesc

/-- The service call `getUserComplaints(userId)` against a table state. -/
def getUserComplaints (db : List Complaint) (uid : String) : List Complaint :=
  runQuery db (getUserComplaintsQuery uid)

/-- The service call `getAllComplaints(filters)` against a table state. -/
def getAllComplaints (db : List Complaint) (f : Filters) : List Complaint :=
  runQuery db (getAllComplaintsQuery f)

/-- Case-insensitive prefix comparison of character lists. -/
def ciPrefix : List Char → List Char → Bool
  | [], _ => true
  | _ :: _, [] => false
  | c :: cs, d :: ds => (c.toLower == d.toLower) && ciPrefix cs ds

/-- Case-insensitive substring containment, the spec's reading of
"matches against description and address case-insensitively". -/
def ciSubstring (sub text : String) : Bool :=
  text.data.tails.any (ciPrefix sub.data)

/-- Absence of the SQL wildcard characters in a search text. -/
def noWildcards (s : List Char) : Bool := s.all (fun c => c ≠ '%' && c ≠ '_')

/-- State of the submission wizard component. -/
structure WizardState where
  step : ℕ
  capturedImage : Bool
  form : FormState
  currentAddress : Option String
  currentLocation : Option LocationObj
deriving DecidableEq, Repr

/-- Initial wizard state: step 1, no image, default form, no location. -/
def initWizard : WizardState :=
  { step := 1, capturedImage := false, form := defaultForm,
    currentAddress := none, currentLocation := none }

/-- Submit-time validation performed by `handleSubmit` from the registered
validators: `category`, `description` and `address` are `required`; nothing
else is validated. -/
def canSubmit (f : FormState) : Bool :=
  f.category ≠ "" && f.description ≠ "" && f.address ≠ ""

/-- The submit action as seen through `handleSubmit(onSubmit)`: `onSubmit`
(and hence the create call) runs only when validation passes. -/
def handleSubmitModel (form : FormState) (uid : String) (captured : Bool)
    (upload : Except Unit String) (curAddr : Option String)
    (curLoc : Option LocationObj) (aiConf : Option ℚ) : Option (List ComplaintData) :=
  if canSubmit form then some (onSubmitCalls form uid captured upload curAddr curLoc aiConf)
  else none

/-- Reachable states of the wizard under the component's event handlers.
Transitions mirror the source: capturing an image runs the classifier over
the result; the step-1 Next button is disabled without an image; the step-2
Next button calls `nextStep` with no guard; Previous is available from steps
2 and 3; the Details inputs edit their registered fields; a location fix
writes the coordinates, runs `reverseGeocode` and stores the address. -/
inductive Reachable : WizardState → Prop where
  | init : Reachable initWizard
  | locationSet (s) (a b : ℚ) (r1 : Option NominatimData) (r2 : Option BDCData)
      (r3 : Option NominatimData) (err : Bool) :
      Reachable s →
      Reachable { s with
        currentLocation := some (mkLocation a b)
        currentAddress := some (reverseGeocode a b r1 r2 r3 err)
        form := { s.form with
                  latitude := .num a
                  longitude := .num b
                  address := reverseGeocode a b r1 r2 r3 err } }
  | capture (s) (preds : List Prediction) :
      Reachable s → s.step = 1 →
      Reachable { s with
        capturedImage := true
        form := processImageWithAI s.form preds s.currentAddress s.currentLocation }
  | removeImage (s) :
      Reachable s → s.step = 1 →
      Reachable { s with capturedImage := false }
  | nextFromCapture (s) :
      Reachable s → s.step = 1 → s.capturedImage = true →
      Reachable { s with step := 2 }
  | nextFromDetails (s) :
      Reachable s → s.step = 2 →
      Reachable { s with step := 3 }
  | prevStep (s) :
      Reachable s → (s.step = 2 ∨ s.step = 3) →
      Reachable { s with step := s.step - 1 }
  | editCategory (s) (c : String) :
      Reachable s → s.step = 2 →
      Reachable { s with form := setCategory s.form c }
  | editDescription (s) (d : String) :
      Reachable s → s.step = 2 →
      Reachable { s with form := setDescription s.form d }
  | editPriority (s) (p : String) :
      Reachable s → s.step = 2 →
      Reachable { s with form := { s.form with priority := p } }
  | editAddress (s) (a : String) :
      Reachable s → s.step = 3 →
      Reachable { s with form := { s.form with address := a } }

/-- Sample persisted complaint used as a concrete starting row in several
scenarios. -/
def sampleComplaint : Complaint :=
  { id := 1, user_id := some "user-1", category := "Pothole", description := "a pothole",
    priority := "medium", status := "pending", department := "Road Authority",
    address := "MG Road, Lucknow", latitude := 0, longitude := 0, image_url := none,
    ai_confidence := none, created_at := 0, updated_at := 0, resolved_at := none,
    admin_notes := none, assigned_to := none }

/-- A form as produced by a confident autofill for `Pothole` followed by the
user switching the category select to `Garbage`. -/
def staleForm : FormState :=
  setCategory
    (processImageWithAI defaultForm [⟨Category.Pothole, mkRat 9 10⟩] (some "MG Road, Lucknow") none)
    "Garbage"

/-- C1: the department/category invariant fails on the code. After an AI
autofill (which writes the form's hidden `department` value) and a manual
category change in the Details step (which only updates the registered
`category` field, the department display being an unregistered read-only
input), the submitted record keeps the stale department: it stores
`Road Authority` for category `Garbage` instead of the lookup-table image
`Sanitation Department`. The admin-side `updateComplaintStatus` likewise
applies a category change without recomputing `department`. -/
theorem C1_department_consistency_bug :
    staleForm.category = "Garbage" ∧
    (complaintDataOf staleForm "user-1" none (some "MG Road, Lucknow") none none).department =
      some "Road Authority" ∧
    departmentFor staleForm.category = some "Sanitation Department" ∧
    (complaintDataOf staleForm "user-1" none (some "MG Road, Lucknow") none none).department ≠
      departmentFor staleForm.category ∧
    (updateComplaintStatus sampleComplaint { category := some "Garbage" } 5).category = "Garbage" ∧
    (updateComplaintStatus sampleComplaint { category := some "Garbage" } 5).department =
      "Road Authority" := by
  have hform : staleForm =
      { category := "Garbage"
        description := "I have noticed a pothole at MG Road, Lucknow. It is creating difficulty for pedestrians and vehicles."
        priority := "medium"
        department := "Road Authority"
        address := ""
        latitude := .str ""
        longitude := .str "" } := by
    unfold staleForm setCategory processImageWithAI bestPrediction
    norm_num [confidenceThreshold, autofillAddress, jsOrS, jsStr, defaultForm]
    decide
  refine ⟨?_, ?_, ?_, ?_, rfl, rfl⟩ <;>
    simp [hform, complaintDataOf, departmentFor]

/-- Update object carrying only a status change, as sent by the admin
dashboard (`updateComplaintStatus(id, { status })`). -/
def statusOnly (s : String) : StatusUpdates := { status := some s }

/-- Invariant of update sequences: `resolved_at` stays `none` exactly while
the start row had no resolution time and no update in the sequence set the
status to `resolved`. -/
lemma applyUpdates_resolved_at_none (l : List (StatusUpdates × ℕ)) :
    ∀ c : Complaint, (applyUpdates c l).resolved_at = none ↔
      (c.resolved_at = none ∧ ∀ p ∈ l, p.1.status ≠ some "resolved") := by
  induction l with
  | nil => intro c; simp [applyUpdates]
  | cons p rest ih =>
    intro c
    obtain ⟨u, t⟩ := p
    rw [applyUpdates, ih]
    by_cases h : u.status = some "resolved" <;>
      simp [updateComplaintStatus, h, and_assoc]

/-- C2: counterexample to the claimed equivalence. Resolving a fresh
complaint and then moving it back to `in_progress` leaves a row whose status
is not `resolved` while `resolved_at` is still non-null, so "resolved_at is
non-null if and only if status is resolved" fails for this update
sequence. -/
theorem C2_counterexample_leaving_resolved :
    (applyUpdates sampleComplaint [(statusOnly "resolved", 5), (statusOnly "in_progress", 6)]).status =
      "in_progress" ∧
    (applyUpdates sampleComplaint [(statusOnly "resolved", 5), (statusOnly "in_progress", 6)]).resolved_at =
      some 5 := by
  decide

/-- C2 (amended): for a complaint starting with null `resolved_at`, after any
sequence of `updateComplaintStatus` calls `resolved_at` is non-null iff some
call in the sequence set status `resolved`; each call sets `updated_at` to
its call time; a resolving call sets `resolved_at` to its call time and any
other call leaves `resolved_at` unchanged. -/
theorem C2_resolvedAt_tracks_resolution (c : Complaint) (l : List (StatusUpdates × ℕ))
    (h : c.resolved_at = none) :
    ((applyUpdates c l).resolved_at ≠ none ↔ ∃ p ∈ l, p.1.status = some "resolved") ∧
    (∀ u t, (updateComplaintStatus c u t).updated_at = t) ∧
    (∀ u t, u.status = some "resolved" → (updateComplaintStatus c u t).resolved_at = some t) ∧
    (∀ u t, u.status ≠ some "resolved" →
      (updateComplaintStatus c u t).resolved_at = c.resolved_at) := by
  refine ⟨?_, fun u t => rfl, fun u t hu => by simp [updateComplaintStatus, hu],
    fun u t hu => by simp [updateComplaintStatus, hu]⟩
  rw [Ne, applyUpdates_resolved_at_none, h]
  simp

/-- Witness: the amended C2 statement applied to a concrete fresh complaint
and a single resolving update. -/
theorem C2_resolvedAt_tracks_resolution_witness :
    sampleComplaint.resolved_at = none ∧
      (applyUpdates sampleComplaint [(statusOnly "resolved", 3)]).resolved_at ≠ none ∧
      (updateComplaintStatus sampleComplaint (statusOnly "resolved") 3).updated_at = 3 ∧
      (updateComplaintStatus sampleComplaint (statusOnly "resolved") 3).resolved_at = some 3 ∧
      (updateComplaintStatus sampleComplaint (statusOnly "in_progress") 4).resolved_at =
        sampleComplaint.resolved_at :=
  ⟨rfl,
    (C2_resolvedAt_tracks_resolution sampleComplaint _ rfl).1.mpr
      ⟨(statusOnly "resolved", 3), by simp, rfl⟩,
    (C2_resolvedAt_tracks_resolution sampleComplaint [] rfl).2.1 (statusOnly "resolved") 3,
    (C2_resolvedAt_tracks_resolution sampleComplaint [] rfl).2.2.1 (statusOnly "resolved") 3 rfl,
    (C2_resolvedAt_tracks_resolution sampleComplaint [] rfl).2.2.2 (statusOnly "in_progress") 4
      (by simp [statusOnly])⟩

/-- C10: when the form's latitude/longitude are still the empty-string
defaults at submit time, the created record carries coordinates `0`/`0`. The
secondary fallback reads `currentLocation.lat`/`currentLocation.lng`, but
every location state object the component constructs has keys
`latitude`/`longitude`, so that property access is always `undefined` and
`parseFloat` is applied to the final `0` fallback. -/
theorem C10_empty_coords_default_zero (form : FormState) (uid : String)
    (img : Option String) (curAddr : Option String) (aiConf : Option ℚ)
    (loc : Option LocationObj)
    (hla : form.latitude = .str "") (hlo : form.longitude = .str "")
    (hloc : loc = none ∨ ∃ a b, loc = some (mkLocation a b)) :
    (∀ a b, getProp (mkLocation a b) "lat" = none ∧ getProp (mkLocation a b) "lng" = none) ∧
    (complaintDataOf form uid img curAddr loc aiConf).latitude = some 0 ∧
    (complaintDataOf form uid img curAddr loc aiConf).longitude = some 0 := by
  have hprops : ∀ a b : ℚ, getProp (mkLocation a b) "lat" = none ∧
      getProp (mkLocation a b) "lng" = none := by
    intro a b
    constructor <;> rfl
  refine ⟨hprops, ?_, ?_⟩ <;>
  · rcases hloc with h | ⟨a, b, h⟩ <;>
      simp [h, complaintDataOf, hla, hlo, jsOr, JSVal.truthy, parseFloatJS,
        (hprops _ _).1, (hprops _ _).2, Option.bind]

/-- Witness: C10 applied to the default form and a concrete location state
object for coordinates `(1, 2)`. -/
theorem C10_empty_coords_default_zero_witness :
    defaultForm.latitude = JSVal.str "" ∧ defaultForm.longitude = JSVal.str "" ∧
    getProp (mkLocation 1 2) "lat" = none ∧ getProp (mkLocation 1 2) "lng" = none ∧
    (complaintDataOf defaultForm "user-1" none none (some (mkLocation 1 2)) none).latitude =
      some 0 ∧
    (complaintDataOf defaultForm "user-1" none none (some (mkLocation 1 2)) none).longitude =
      some 0 := by
  have h := C10_empty_coords_default_zero defaultForm "user-1" none none none
    (some (mkLocation 1 2)) rfl rfl (Or.inr ⟨1, 2, rfl⟩)
  exact ⟨rfl, rfl, (h.1 1 2).1, (h.1 1 2).2, h.2.1, h.2.2⟩

/-- Insert payload with every schema-required column present but no reporter
id. -/
def noReporterData : ComplaintData :=
  { user_id := none, category := some "Pothole", description := some "a pothole",
    priority := some "medium", status := some "pending", department := some "Road Authority",
    address := some "MG Road", latitude := some 1, longitude := some 2,
    image_url := none, ai_confidence := none }

/-- C7: counterexample to the claimed required-field list. The `user_id`
column is nullable in the repository's schema, so a create with the reporter
id missing succeeds instead of failing with a validation error. -/
theorem C7_counterexample_missing_reporter :
    noReporterData.user_id = none ∧
    (insertComplaint noReporterData 0 1 true).isOk = true := by
  constructor
  · rfl
  · rfl

/-- C7 (amended): the fields whose absence makes the create fail with a
validation error are exactly the `NOT NULL` columns without defaults —
`category`, `description`, `department`, `address`, `latitude`, `longitude`
(reporter id is nullable and `priority`/`status` have defaults) — and, for a
payload with those fields present, the create fails with a storage error
exactly when the underlying write fails. -/
theorem C7_create_error_taxonomy (d : ComplaintData) (now cid : ℕ) (writeOk : Bool)
    (hm : missingRequired d = false) :
    (insertComplaint d now cid writeOk = .error .storage ↔ writeOk = false) ∧
    (∀ d' : ComplaintData, missingRequired d' = true →
      insertComplaint d' now cid writeOk = .error .validation) ∧
    (missingRequired d = true ↔
      (d.category = none ∨ d.description = none ∨ d.department = none ∨
        d.address = none ∨ d.latitude = none ∨ d.longitude = none)) := by
  refine ⟨?_, fun d' hd' => by simp [insertComplaint, hd'], ?_⟩
  · cases writeOk <;> simp [insertComplaint, hm]
  · simp [missingRequired, Option.isNone_iff_eq_none, or_assoc]

/-- Witness: the amended C7 statement applied to a complete payload with a
failing write and to a fully missing payload. -/
theorem C7_create_error_taxonomy_witness :
    missingRequired noReporterData = false ∧
    (insertComplaint noReporterData 0 1 false = .error .storage ↔ (false : Bool) = false) ∧
    insertComplaint ({} : ComplaintData) 0 1 false = .error .validation :=
  ⟨rfl, (C7_create_error_taxonomy noReporterData 0 1 false rfl).1,
    (C7_create_error_taxonomy noReporterData 0 1 false rfl).2.1 {} rfl⟩

/-- Invariant of the confidence scan: once the accumulator's probability is
positive a class has been selected, and this is preserved along the fold. -/
lemma foldl_best_isSome :
    ∀ (l : List Prediction) (acc : Option Category × ℚ),
      (0 < acc.2 → acc.1.isSome = true) →
      0 < (l.foldl (fun acc p =>
          if p.probability > acc.2 then (some p.className, p.probability) else acc) acc).2 →
      (l.foldl (fun acc p =>
          if p.probability > acc.2 then (some p.className, p.probability) else acc) acc).1.isSome = true := by
  intro l
  induction l with
  | nil => intro acc hacc; exact hacc
  | cons p rest ih =>
    intro acc hacc
    simp only [List.foldl_cons]
    apply ih
    by_cases hp : p.probability > acc.2
    · simp [hp]
    · simpa [hp] using hacc

/-- A positive best confidence means the scan selected a class. -/
lemma bestPrediction_fst_isSome (l : List Prediction) (h : 0 < (bestPrediction l).2) :
    (bestPrediction l).1.isSome = true := by
  unfold bestPrediction at *
  exact foldl_best_isSome l (none, 0) (fun h0 => absurd h0 (lt_irrefl 0)) h

/-- C3: the wizard pre-fills `category`, `department` and the templated
description exactly when the best confidence is strictly above the `0.6`
threshold; at or below the threshold the form is left unchanged for manual
entry. -/
theorem C3_autofill_strict_threshold (form : FormState) (preds : List Prediction)
    (curAddr : Option String) (curLoc : Option LocationObj) :
    (confidenceThreshold < (bestPrediction preds).2 →
      ∃ cls, (bestPrediction preds).1 = some cls ∧
        processImageWithAI form preds curAddr curLoc =
          { form with
            category := categoryName cls
            department := departmentMapping cls
            description :=
              replaceFirst (descriptionTemplate cls) "[ADDRESS]"
                (autofillAddress curAddr curLoc) }) ∧
    ((bestPrediction preds).2 ≤ confidenceThreshold →
      processImageWithAI form preds curAddr curLoc = form) := by
  constructor
  · intro h
    have hpos : 0 < (bestPrediction preds).2 :=
      lt_trans (by norm_num [confidenceThreshold]) h
    obtain ⟨cls, hcls⟩ := Option.isSome_iff_exists.mp (bestPrediction_fst_isSome preds hpos)
    refine ⟨cls, hcls, ?_⟩
    unfold processImageWithAI
    rw [if_pos h, hcls]
  · intro h
    unfold processImageWithAI
    rw [if_neg (not_lt.mpr h)]

/-- Witness: C3 at confidence `0.7` (fills the three fields) and at exactly
`0.6` (leaves the form unchanged). -/
theorem C3_autofill_strict_threshold_witness :
    (confidenceThreshold < (bestPrediction [⟨Category.Pothole, mkRat 7 10⟩]).2 ∧
      processImageWithAI defaultForm [⟨Category.Pothole, mkRat 7 10⟩] (some "MG Road") none =
        { defaultForm with
          category := "Pothole"
          department := "Road Authority"
          description :=
            replaceFirst (descriptionTemplate Category.Pothole) "[ADDRESS]"
              (autofillAddress (some "MG Road") none) }) ∧
    ((bestPrediction [⟨Category.Garbage, mkRat 6 10⟩]).2 ≤ confidenceThreshold ∧
      processImageWithAI defaultForm [⟨Category.Garbage, mkRat 6 10⟩] (some "MG Road") none =
        defaultForm) := by
  have h1 : confidenceThreshold < (bestPrediction [⟨Category.Pothole, mkRat 7 10⟩]).2 := by
    norm_num [bestPrediction, confidenceThreshold]
  have h2 : (bestPrediction [⟨Category.Garbage, mkRat 6 10⟩]).2 ≤ confidenceThreshold := by
    norm_num [bestPrediction, confidenceThreshold]
  obtain ⟨cls, hcls, heq⟩ :=
    (C3_autofill_strict_threshold defaultForm [⟨Category.Pothole, mkRat 7 10⟩]
      (some "MG Road") none).1 h1
  have hbest : (bestPrediction [⟨Category.Pothole, mkRat 7 10⟩]).1 = some Category.Pothole := by
    norm_num [bestPrediction]
  have hcp : cls = Category.Pothole := by
    rw [hbest] at hcls
    exact (Option.some_inj.mp hcls).symm
  subst hcp
  exact ⟨⟨h1, heq⟩,
    ⟨h2, (C3_autofill_strict_threshold defaultForm _ (some "MG Road") none).2 h2⟩⟩

/-- A string with non-empty character data is not the empty string. -/
lemma str_ne_empty_of_data (s : String) (h : s.data ≠ []) : s ≠ "" :=
  fun he => h (by rw [he])

/-- Appending to the right of a non-empty string keeps it non-empty. -/
lemma append_ne_empty_left (s t : String) (hs : s ≠ "") : s ++ t ≠ "" := by
  intro h
  have hd : s.data ++ t.data = [] := by
    have := congrArg String.data h
    rwa [String.data_append] at this
  exact hs (String.ext (List.append_eq_nil.mp hd).1)

/-- Appending a non-empty string keeps the result non-empty. -/
lemma append_ne_empty_right (s t : String) (ht : t ≠ "") : s ++ t ≠ "" := by
  intro h
  have hd : s.data ++ t.data = [] := by
    have := congrArg String.data h
    rwa [String.data_append] at this
  exact ht (String.ext (List.append_eq_nil.mp hd).2)

/-- A string of positive length is not empty. -/
lemma ne_empty_of_length_pos (s : String) (h : 0 < s.length) : s ≠ "" := by
  intro he
  rw [he] at h
  simp at h

/-- Values surviving the truthiness projection are non-empty. -/
lemma jsStr_some (v : Option String) (s : String) (h : jsStr v = some s) : s ≠ "" := by
  cases v with
  | none => simp [jsStr] at h
  | some a =>
    by_cases ha : a = "" <;> simp [jsStr, ha] at h
    rw [← h]
    exact ha

/-- Joining a non-empty list of non-empty strings is non-empty. -/
lemma joinComma_ne_empty : ∀ l : List String, l ≠ [] → (∀ p ∈ l, p ≠ "") → joinComma l ≠ ""
  | [], hne, _ => absurd rfl hne
  | [s], _, h => by simpa [joinComma] using h s (by simp)
  | s :: t :: rest, _, h => by
    show s ++ ", " ++ joinComma (t :: rest) ≠ ""
    exact append_ne_empty_left _ _ (append_ne_empty_left _ _ (h s (by simp)))

/-- A truthiness-guarded push only ever adds non-empty parts. -/
lemma pushTruthy_all_ne (parts : List String) (v : Option String)
    (h : ∀ p ∈ parts, p ≠ "") : ∀ p ∈ pushTruthy parts v, p ≠ "" := by
  unfold pushTruthy
  cases hv : jsStr v with
  | none => exact h
  | some s =>
    intro p hp
    rcases List.mem_append.mp hp with h1 | h2
    · exact h p h1
    · simp at h2
      subst h2
      exact jsStr_some v p hv

/-- A duplicate-checked push only ever adds non-empty parts. -/
lemma pushTruthyNew_all_ne (parts : List String) (v : Option String)
    (h : ∀ p ∈ parts, p ≠ "") : ∀ p ∈ pushTruthyNew parts v, p ≠ "" := by
  unfold pushTruthyNew
  cases hv : jsStr v with
  | none => exact h
  | some s =>
    by_cases hc : s ∈ parts
    · simpa [hc] using h
    · simp only [hc, if_neg, not_false_iff]
      intro p hp
      rcases List.mem_append.mp hp with h1 | h2
      · exact h p h1
      · simp at h2
        subst h2
        exact jsStr_some v p hv

/-- All address parts assembled by the primary Nominatim branch are
non-empty. -/
lemma nominatimParts_all_ne (a : NominatimAddress) : ∀ p ∈ nominatimParts a, p ≠ "" := by
  unfold nominatimParts
  apply pushTruthy_all_ne
  apply pushTruthy_all_ne
  apply pushTruthy_all_ne
  apply pushTruthyNew_all_ne
  apply pushTruthyNew_all_ne
  apply pushTruthyNew_all_ne
  apply pushTruthy_all_ne
  apply pushTruthy_all_ne
  apply pushTruthy_all_ne
  apply pushTruthy_all_ne
  apply pushTruthy_all_ne
  apply pushTruthy_all_ne
  apply pushTruthy_all_ne
  apply pushTruthy_all_ne
  apply pushTruthy_all_ne
  apply pushTruthy_all_ne
  simp

/-- All parts of the shorter Nominatim fallback assembly are non-empty. -/
lemma nominatimFallbackParts_all_ne (a : NominatimAddress) :
    ∀ p ∈ nominatimFallbackParts a, p ≠ "" := by
  unfold nominatimFallbackParts
  apply pushTruthy_all_ne
  apply pushTruthyNew_all_ne
  apply pushTruthyNew_all_ne
  apply pushTruthy_all_ne
  apply pushTruthy_all_ne
  simp

/-- The fallback-parts return site yields a non-empty address. -/
lemma fallbackMatch_ne_empty (addr : NominatimAddress) (a : String)
    (h : (match nominatimFallbackParts addr with
          | [] => (none : Option String)
          | ps => some (joinComma ps)) = some a) : a ≠ "" := by
  cases hps : nominatimFallbackParts addr with
  | nil => rw [hps] at h; exact absurd h (by simp)
  | cons x xs =>
    rw [hps] at h
    rw [← Option.some_inj.mp h]
    exact joinComma_ne_empty _ (by simp)
      (fun p hp => nominatimFallbackParts_all_ne addr p (by rw [hps]; exact hp))

/-- Every address returned by the primary Nominatim processing is
non-empty. -/
lemma processNominatim_ne_empty (d : NominatimData) (a : String)
    (h : processNominatim d = some a) : a ≠ "" := by
  unfold processNominatim at h
  split at h
  · exact absurd h (by simp)
  · simp only [] at h
    split_ifs at h with h15 h10
    · rw [← Option.some_inj.mp h]
      exact ne_empty_of_length_pos _ (lt_trans (by norm_num) h15)
    · split at h
      · rename_i dn heq
        split_ifs at h with hdn
        · rw [← Option.some_inj.mp h]
          exact jsStr_some _ _ heq
        · exact fallbackMatch_ne_empty _ _ h
      · exact fallbackMatch_ne_empty _ _ h
    · split at h
      · rename_i dn heq
        split_ifs at h with hdn
        rw [← Option.some_inj.mp h]
        exact jsStr_some _ _ heq
      · exact absurd h (by simp)

/-- Every address returned by the BigDataCloud processing is non-empty. -/
lemma processBDC_ne_empty (d : BDCData) (a : String)
    (h : processBDC d = some a) : a ≠ "" := by
  unfold processBDC at h
  simp only [] at h
  split_ifs at h with h1 h2
  · have hgt : 15 < (joinComma (pushTruthy (pushTruthy (pushTruthy [] d.locality)
        d.principalSubdivision) d.countryName)).length :=
      of_decide_eq_true ((Bool.and_eq_true _ _).mp h1).2
    rw [← Option.some_inj.mp h]
    exact ne_empty_of_length_pos _ (lt_trans (by norm_num) hgt)
  · have hgt : 15 < (joinComma (pushTruthy (pushTruthy (pushTruthy [] d.locality)
        d.principalSubdivision) d.countryName)).length :=
      of_decide_eq_true ((Bool.and_eq_true _ _).mp h2).2
    rw [← Option.some_inj.mp h]
    exact ne_empty_of_length_pos _ (lt_trans (by norm_num) hgt)

/-- Every address returned by the alternative Nominatim processing is
non-empty. -/
lemma processNominatimAlt_ne_empty (d : NominatimData) (a : String)
    (h : processNominatimAlt d = some a) : a ≠ "" := by
  unfold processNominatimAlt at h
  split at h
  · rename_i s hs
    rw [← Option.some_inj.mp h]
    unfold altFromAddress at hs
    split at hs
    · exact absurd hs (by simp)
    · simp only [] at hs
      split_ifs at hs with h15
      rw [← Option.some_inj.mp hs]
      exact ne_empty_of_length_pos _ (lt_trans (by norm_num) h15)
  · exact jsStr_some _ _ h

/-- Every `toFixed(6)` rendering ends in a decimal point followed by exactly
six digits. -/
lemma toFixed6_decomp (q : ℚ) :
    ∃ pre frac : String, toFixed6 q = pre ++ "." ++ frac ∧ frac.length = 6 := by
  have habs : ∀ r : ℚ, ∃ pre frac : String,
      toFixed6Abs r = pre ++ "." ++ frac ∧ frac.length = 6 := by
    intro r
    refine ⟨toString ((Int.floor (r * 1000000 + 1 / 2)).toNat / 1000000),
      fracDigits6 ((Int.floor (r * 1000000 + 1 / 2)).toNat % 1000000), rfl, ?_⟩
    simp [fracDigits6, String.length]
  unfold toFixed6
  split_ifs with hq
  · obtain ⟨pre, frac, he, hl⟩ := habs (-q)
    exact ⟨"-" ++ pre, frac, by rw [he, ← String.append_assoc, ← String.append_assoc], hl⟩
  · exact habs q

/-- The bare coordinate fallback is never the empty string. -/
lemma bareCoords_ne_empty (lat lon : ℚ) : bareCoords lat lon ≠ "" := by
  unfold bareCoords
  exact append_ne_empty_left _ _ (append_ne_empty_right _ _ (by decide))

/-- The labelled GPS fallback is never the empty string. -/
lemma gpsFallback_ne_empty (lat lon : ℚ) : gpsFallback lat lon ≠ "" := by
  unfold gpsFallback
  exact append_ne_empty_left _ _ (by decide)

/-- The labelled GPS fallback differs from the bare coordinate string. -/
lemma gpsFallback_ne_bareCoords (lat lon : ℚ) : gpsFallback lat lon ≠ bareCoords lat lon := by
  intro h
  have := congrArg String.length h
  rw [gpsFallback, String.length_append,
    show ("GPS Location: ").length = 14 from rfl] at this
  omega

/-- C4: when every geocoding provider fails, `reverseGeocode` resolves to the
literal string `GPS Location: {lat}, {lon}` with both coordinates rendered to
six decimal places, the string passes the submit-time address validation, and
the created record stores it as the address — so the wizard still completes. -/
theorem C4_geocode_failure_fallback (lat lon : ℚ) (form : FormState) (uid : String)
    (img : Option String) (curAddr : Option String) (curLoc : Option LocationObj)
    (aiConf : Option ℚ)
    (hc : form.category ≠ "") (hd : form.description ≠ "") :
    reverseGeocode lat lon none none none false =
      "GPS Location: " ++ toFixed6 lat ++ ", " ++ toFixed6 lon ∧
    (∃ pre frac : String, toFixed6 lat = pre ++ "." ++ frac ∧ frac.length = 6) ∧
    (∃ pre frac : String, toFixed6 lon = pre ++ "." ++ frac ∧ frac.length = 6) ∧
    canSubmit { form with address := reverseGeocode lat lon none none none false } = true ∧
    (complaintDataOf { form with address := reverseGeocode lat lon none none none false }
        uid img curAddr curLoc aiConf).address =
      some (reverseGeocode lat lon none none none false) := by
  have hrg : reverseGeocode lat lon none none none false = gpsFallback lat lon := rfl
  have hassoc : gpsFallback lat lon =
      "GPS Location: " ++ toFixed6 lat ++ ", " ++ toFixed6 lon := by
    unfold gpsFallback bareCoords
    rw [← String.append_assoc, ← String.append_assoc]
  refine ⟨hrg.trans hassoc, toFixed6_decomp lat, toFixed6_decomp lon, ?_, ?_⟩
  · simp [canSubmit, hc, hd, hrg, gpsFallback_ne_empty]
  · simp [complaintDataOf, jsOrS, jsStr, hrg, gpsFallback_ne_empty lat lon]

/-- A concrete form with the fields the submit validation requires. -/
def filledForm : FormState :=
  { category := "Pothole", description := "a pothole", priority := "medium",
    department := "", address := "MG Road", latitude := .num 1, longitude := .num 2 }

/-- Witness: C4 applied at coordinates `(1, 2)` and a concrete filled form. -/
theorem C4_geocode_failure_fallback_witness :
    filledForm.category ≠ "" ∧ filledForm.description ≠ "" ∧
    reverseGeocode 1 2 none none none false =
      "GPS Location: " ++ toFixed6 1 ++ ", " ++ toFixed6 2 ∧
    canSubmit { filledForm with address := reverseGeocode 1 2 none none none false } = true ∧
    (complaintDataOf { filledForm with address := reverseGeocode 1 2 none none none false }
        "user-1" none none none none).address =
      some (reverseGeocode 1 2 none none none false) := by
  have h := C4_geocode_failure_fallback 1 2 filledForm "user-1" none none none none
    (by decide) (by decide)
  exact ⟨by decide, by decide, h.1, h.2.2.2.1, h.2.2.2.2⟩

/-- C9: `reverseGeocode` is total and never returns an empty address; on an
internal exception (the outer catch) it returns the bare coordinate string,
which has a different shape than the all-providers-failed GPS fallback. -/
theorem C9_reverseGeocode_total (lat lon : ℚ) (r1 : Option NominatimData)
    (r2 : Option BDCData) (r3 : Option NominatimData) (err : Bool) :
    reverseGeocode lat lon r1 r2 r3 err ≠ "" ∧
    (err = true → reverseGeocode lat lon r1 r2 r3 err = bareCoords lat lon) ∧
    bareCoords lat lon ≠ gpsFallback lat lon := by
  refine ⟨?_, fun he => by simp [reverseGeocode, he], fun h =>
    gpsFallback_ne_bareCoords lat lon h.symm⟩
  unfold reverseGeocode
  split_ifs with herr
  · exact bareCoords_ne_empty lat lon
  · cases h1 : r1.bind processNominatim with
    | some a =>
      show a ≠ ""
      rcases r1 with _ | d1
      · simp at h1
      · exact processNominatim_ne_empty d1 a (by simpa using h1)
    | none =>
      cases h2 : r2.bind processBDC with
      | some a =>
        show a ≠ ""
        rcases r2 with _ | d2
        · simp at h2
        · exact processBDC_ne_empty d2 a (by simpa using h2)
      | none =>
        cases h3 : r3.bind processNominatimAlt with
        | some a =>
          show a ≠ ""
          rcases r3 with _ | d3
          · simp at h3
          · exact processNominatimAlt_ne_empty d3 a (by simpa using h3)
        | none =>
          show gpsFallback lat lon ≠ ""
          exact gpsFallback_ne_empty lat lon

/-- Witness: C9 applied at coordinates `(1, 2)` with the internal-error flag
set. -/
theorem C9_reverseGeocode_total_witness :
    reverseGeocode 1 2 none none none true ≠ "" ∧
    reverseGeocode 1 2 none none none true = bareCoords 1 2 ∧
    bareCoords 1 2 ≠ gpsFallback 1 2 :=
  ⟨(C9_reverseGeocode_total 1 2 none none none true).1,
    (C9_reverseGeocode_total 1 2 none none none true).2.1 rfl,
    (C9_reverseGeocode_total 1 2 none none none true).2.2⟩

/-- C5: one run of the submit flow issues exactly one create call; the
payload carries `status = 'pending'`; the successfully inserted row has
status `pending` and null `resolved_at` (the payload has no `resolved_at`
key and the column defaults to null); and when the image upload fails the
payload's `image_url` is null while submission still proceeds. -/
theorem C5_single_pending_creation (form : FormState) (uid : String) (captured : Bool)
    (upload : Except Unit String) (curAddr : Option String) (curLoc : Option LocationObj)
    (aiConf : Option ℚ) (now cid : ℕ) :
    (onSubmitCalls form uid captured upload curAddr curLoc aiConf).length = 1 ∧
    (∀ d ∈ onSubmitCalls form uid captured upload curAddr curLoc aiConf,
      d.status = some "pending" ∧
      (∀ c, insertComplaint d now cid true = .ok c →
        c.status = "pending" ∧ c.resolved_at = none) ∧
      (captured = true → upload = .error () → d.image_url = none)) := by
  refine ⟨rfl, ?_⟩
  intro d hd
  have hdd : d = complaintDataOf form uid (uploadedUrl captured upload) curAddr curLoc aiConf := by
    simpa [onSubmitCalls] using hd
  have hstatus : d.status = some "pending" := by rw [hdd]; rfl
  refine ⟨hstatus, ?_, ?_⟩
  · intro c hc
    unfold insertComplaint at hc
    split_ifs at hc with hm hw
    have hcc := Except.ok.inj hc
    rw [← hcc]
    exact ⟨by simp [hstatus], rfl⟩
  · intro hcap herr
    rw [hdd, hcap, herr]
    rfl

/-- Payload submitted in the concrete failing-upload scenario. -/
def c5data : ComplaintData :=
  complaintDataOf filledForm "user-1" (uploadedUrl true (.error ())) (some "MG Road") none none

/-- Row created by the insert in the concrete failing-upload scenario. -/
def c5row : Complaint :=
  { id := 1, user_id := some "user-1", category := "Pothole", description := "a pothole",
    priority := "medium", status := "pending", department := "Road Authority",
    address := "MG Road", latitude := 1, longitude := 2, image_url := none,
    ai_confidence := none, created_at := 7, updated_at := 7, resolved_at := none,
    admin_notes := none, assigned_to := none }

/-- Witness: C5 applied to a concrete submission whose image upload fails. -/
theorem C5_single_pending_creation_witness :
    (onSubmitCalls filledForm "user-1" true (.error ()) (some "MG Road") none none).length = 1 ∧
    c5data.status = some "pending" ∧ c5data.image_url = none ∧
    c5row.status = "pending" ∧ c5row.resolved_at = none := by
  have h := C5_single_pending_creation filledForm "user-1" true (.error ())
    (some "MG Road") none none 7 1
  have hmem : c5data ∈
      onSubmitCalls filledForm "user-1" true (.error ()) (some "MG Road") none none := by
    simp [onSubmitCalls, c5data]
  have hinsert : insertComplaint c5data 7 1 true = .ok c5row := by
    norm_num [insertComplaint, missingRequired, c5data, c5row, complaintDataOf, uploadedUrl,
      jsOr, JSVal.truthy, parseFloatJS, jsOrS, jsStr, departmentFor, filledForm]
    decide
  have h2 := (h.2 c5data hmem).2.1 c5row hinsert
  exact ⟨h.1, (h.2 c5data hmem).1, (h.2 c5data hmem).2.2 rfl rfl, h2.1, h2.2⟩

/-- A lone `%` pattern matches every text. -/
lemma likeMatch_pct_any : ∀ s : List Char, likeMatch ['%'] s = true := by
  intro s
  induction s with
  | nil => rfl
  | cons c rest ih =>
    show ((c :: rest).tails.any fun t => likeMatch [] t) = true
    simp only [List.tails_cons, List.any_cons]
    rw [Bool.or_eq_true]
    right
    simp [likeMatch]

/-- A wildcard-free pattern followed by `%` matches exactly the texts that
start with the pattern, case-insensitively. -/
lemma likeMatch_lit_pct (t : List Char) (ht : noWildcards t = true) :
    ∀ s : List Char, likeMatch (t ++ ['%']) s = ciPrefix t s := by
  induction t with
  | nil =>
    intro s
    simp only [List.nil_append, ciPrefix]
    exact likeMatch_pct_any s
  | cons c cs ih =>
    intro s
    have hc : ¬(c = '%') ∧ ¬(c = '_') ∧ noWildcards cs = true := by
      simp only [noWildcards, List.all_cons, Bool.and_eq_true, decide_eq_true_eq] at ht
      exact ⟨ht.1.1, ht.1.2, ht.2⟩
    cases s with
    | nil => simp [likeMatch, ciPrefix, hc.1, hc.2.1]
    | cons d ds =>
      show likeMatch (c :: (cs ++ ['%'])) (d :: ds) = ciPrefix (c :: cs) (d :: ds)
      rw [likeMatch, ciPrefix]
      simp only [hc.1, hc.2.1, if_false]
      rw [ih hc.2.2 ds]

/-- For a wildcard-free search text, the `%text%` ILIKE pattern agrees with
case-insensitive substring containment. -/
lemma ilike_wrap_eq_ciSubstring (s text : String) (h : noWildcards s.data = true) :
    ilike text ("%" ++ s ++ "%") = ciSubstring s text := by
  unfold ilike ciSubstring
  have hdata : ("%" ++ s ++ "%").data = '%' :: (s.data ++ ['%']) := by
    rw [String.data_append, String.data_append]
    rfl
  rw [hdata]
  show ((text.data.tails.any fun t => likeMatch (s.data ++ ['%']) t)) =
    text.data.tails.any (ciPrefix s.data)
  have : ∀ l : List (List Char),
      (l.any fun t => likeMatch (s.data ++ ['%']) t) = l.any (ciPrefix s.data) := by
    intro l
    induction l with
    | nil => rfl
    | cons x xs ih => simp [likeMatch_lit_pct s.data h, ih]
  exact this _

/-- Row whose description and address contain no `%` character. -/
def searchedComplaint : Complaint :=
  { id := 2, user_id := some "user-2", category := "Garbage", description := "abc",
    priority := "low", status := "pending", department := "Sanitation Department",
    address := "xyz", latitude := 0, longitude := 0, image_url := none,
    ai_confidence := none, created_at := 4, updated_at := 4, resolved_at := none,
    admin_notes := none, assigned_to := none }

/-- C6: counterexample to the claimed "matches iff contains" reading of the
search. The search text `%` is an ILIKE wildcard: `getAllComplaints` returns
a row whose description and address do not contain `%` at all, so matching is
not equivalent to case-insensitive containment for every search text. -/
theorem C6_counterexample_wildcard_search :
    getAllComplaints [searchedComplaint] { search := some "%" } = [searchedComplaint] ∧
    ciSubstring "%" searchedComplaint.description = false ∧
    ciSubstring "%" searchedComplaint.address = false := by
  refine ⟨?_, by decide, by decide⟩
  show runQuery [searchedComplaint] (getAllComplaintsQuery { search := some "%" }) = _
  have : rowMatches (getAllComplaintsQuery { search := some "%" }) searchedComplaint = true := by
    decide
  simp [runQuery, List.filter, this, List.insertionSort]

/-- C6 (amended): `getUserComplaints` returns exactly the rows of the given
reporter and `getAllComplaints` exactly the rows matching the built query,
each ordered by descending creation time; the search clause is the ILIKE
pattern `%searchText%` over description and address, which coincides with
case-insensitive containment exactly for wildcard-free search texts. -/
theorem C6_list_queries (db : List Complaint) (uid : String) (f : Filters) (c : Complaint) :
    (c ∈ getUserComplaints db uid ↔ c ∈ db ∧ c.user_id = some uid) ∧
    List.Sorted createdDesc (getUserComplaints db uid) ∧
    (c ∈ getAllComplaints db f ↔ c ∈ db ∧ rowMatches (getAllComplaintsQuery f) c = true) ∧
    List.Sorted createdDesc (getAllComplaints db f) ∧
    (∀ s : String, noWildcards s.data = true →
      (ilike c.description ("%" ++ s ++ "%") || ilike c.address ("%" ++ s ++ "%")) =
        (ciSubstring s c.description || ciSubstring s c.address)) := by
  refine ⟨?_, ?_, ?_, ?_, ?_⟩
  · simp [getUserComplaints, runQuery, List.mem_filter, rowMatches, getUserComplaintsQuery,
      and_comm]
  · exact List.sorted_insertionSort createdDesc _
  · simp [getAllComplaints, runQuery, List.mem_filter, and_comm]
  · exact List.sorted_insertionSort createdDesc _
  · intro s hs
    rw [ilike_wrap_eq_ciSubstring _ _ hs, ilike_wrap_eq_ciSubstring _ _ hs]

/-- Row containing the word `GARBAGE` in its description. -/
def garbageComplaint : Complaint :=
  { id := 3, user_id := some "user-3", category := "Garbage", description := "big GARBAGE pile",
    priority := "high", status := "pending", department := "Sanitation Department",
    address := "Park Lane", latitude := 0, longitude := 0, image_url := none,
    ai_confidence := none, created_at := 9, updated_at := 9, resolved_at := none,
    admin_notes := none, assigned_to := none }

/-- Witness: the amended C6 search equivalence at the wildcard-free search
text `garbage` against a concrete row. -/
theorem C6_list_queries_witness :
    noWildcards ("garbage" : String).data = true ∧
    (ilike garbageComplaint.description ("%" ++ "garbage" ++ "%") ||
        ilike garbageComplaint.address ("%" ++ "garbage" ++ "%")) =
      (ciSubstring "garbage" garbageComplaint.description ||
        ciSubstring "garbage" garbageComplaint.address) :=
  ⟨by decide, (C6_list_queries [] "u" {} garbageComplaint).2.2.2.2 "garbage" (by decide)⟩

/-- An empty prediction list leaves the form unchanged (confidence stays
`0`). -/
lemma processImageWithAI_nil (form : FormState) (a : Option String) (l : Option LocationObj) :
    processImageWithAI form [] a l = form := by
  unfold processImageWithAI bestPrediction
  norm_num [confidenceThreshold]

/-- C8: counterexample to the step invariant. The step-2 Next button calls
`nextStep` with no guard, so a state at step 3 with empty `category` and
`description` is reachable (image captured, classifier unconfident, both
Next buttons pressed). -/
theorem C8_counterexample_unguarded_details :
    ¬ ∀ s : WizardState, Reachable s → 3 ≤ s.step →
        s.form.category ≠ "" ∧ s.form.description ≠ "" := by
  intro h
  have h1 := Reachable.capture initWizard [] Reachable.init rfl
  have h2 := Reachable.nextFromCapture _ h1 rfl rfl
  have h3 := Reachable.nextFromDetails _ h2 rfl
  have hcat := (h _ h3 (by norm_num)).1
  apply hcat
  show (processImageWithAI initWizard.form [] initWizard.currentAddress
    initWizard.currentLocation).category = ""
  rw [processImageWithAI_nil]
  rfl

/-- C8 (amended): advancing out of the Details step is always possible from
any reachable step-2 state, and the non-emptiness of `category` and
`description` is enforced only at submission: whenever `handleSubmit` lets
`onSubmit` run (producing create calls), both fields are non-empty. -/
theorem C8_validation_at_submit (s : WizardState) (hs : Reachable s) (h2 : s.step = 2)
    (form : FormState) (uid : String) (captured : Bool) (upload : Except Unit String)
    (curAddr : Option String) (curLoc : Option LocationObj) (aiConf : Option ℚ)
    (calls : List ComplaintData)
    (hsub : handleSubmitModel form uid captured upload curAddr curLoc aiConf = some calls) :
    Reachable { s with step := 3 } ∧ form.category ≠ "" ∧ form.description ≠ "" := by
  refine ⟨?_, ?_, ?_⟩
  · exact Reachable.nextFromDetails s hs h2
  all_goals
    by_cases hcs : canSubmit form = true
    · have := hcs
      simp only [canSubmit, Bool.and_eq_true, decide_eq_true_eq] at this
      first
        | exact this.1.1
        | exact this.1.2
    · rw [handleSubmitModel, if_neg (by simpa using hcs)] at hsub
      exact absurd hsub (by simp)

/-- A concrete reachable step-2 wizard state: image captured, classifier
unconfident. -/
def step2State : WizardState :=
  { step := 2, capturedImage := true, form := processImageWithAI defaultForm [] none none,
    currentAddress := none, currentLocation := none }

/-- The concrete step-2 state is reachable. -/
lemma reachable_step2 : Reachable step2State := by
  have h1 := Reachable.capture initWizard [] Reachable.init rfl
  have h2 := Reachable.nextFromCapture _ h1 rfl rfl
  exact h2

/-- Witness: the amended C8 statement at the concrete reachable step-2 state
and a concrete validated submission. -/
theorem C8_validation_at_submit_witness :
    step2State.step = 2 ∧
    handleSubmitModel filledForm "user-1" false (.ok "url") (some "MG Road") none none =
      some (onSubmitCalls filledForm "user-1" false (.ok "url") (some "MG Road") none none) ∧
    Reachable { step2State with step := 3 } ∧
    filledForm.category ≠ "" ∧ filledForm.description ≠ "" := by
  have hsub : handleSubmitModel filledForm "user-1" false (.ok "url") (some "MG Road") none none =
      some (onSubmitCalls filledForm "user-1" false (.ok "url") (some "MG Road") none none) := by
    rw [handleSubmitModel, if_pos (by decide : canSubmit filledForm = true)]
  have h := C8_validation_at_submit step2State reachable_step2 rfl filledForm "user-1" false
    (.ok "url") (some "MG Road") none none _ hsub
  exact ⟨rfl, hsub, h.1, h.2.1, h.2.2⟩
